import Mathlib

/-!
Shallow embedding of the bitfinex-borrow backend
(`backend/app/services/bitfinex.py` and `backend/app/main.py`).

JSON scalar values arriving on the wire are modelled by `Val`; machine
floats are modelled by `Rat` (the claims under study concern exact
arithmetic identities, filtering and ordering, not rounding); Python
exceptions are modelled by `Except`.  Numeric-string coercion
(`float("1.5")`) is not modelled: the feed sends JSON numbers, and
`pyFloat` treats a string argument as a conversion error.
-/

/-- A scalar JSON value as seen by the Python code (a `None`, bool, int,
float or string).  `datetime` formatting is abstracted away: parsed
timestamps are kept as the epoch-seconds rational. -/
inductive Val where
  | none
  | bool (b : Bool)
  | int (i : Int)
  | num (q : Rat)
  | str (s : String)
deriving DecidableEq, Repr

/-- Python truthiness (`if x:` / `bool(x)`) on a scalar value. -/
def truthy : Val → Bool
  | Val.none => false
  | Val.bool b => b
  | Val.int i => i != 0
  | Val.num q => q != 0
  | Val.str s => s != ""

/-- Errors a record decode can raise: a positional index past the end of
the field array (`IndexError`), or a scalar of the wrong type fed to a
numeric conversion (`TypeError`). -/
inductive DecodeErr where
  | indexError
  | typeError
deriving DecidableEq, Repr

/-- Python `float(x)` on a scalar value.  `float(None)` raises
`TypeError`; numeric-string parsing is not modelled (the feed sends
numbers), so a string argument is also a conversion error. -/
def pyFloat : Val → Except DecodeErr Rat
  | Val.int i => Except.ok (i : Rat)
  | Val.num q => Except.ok q
  | Val.bool b => Except.ok (if b then 1 else 0)
  | Val.none => Except.error DecodeErr.typeError
  | Val.str _ => Except.error DecodeErr.typeError

/-- `data[i]` on a Python list: `IndexError` when out of range. -/
def idx (data : List Val) (i : Nat) : Except DecodeErr Val :=
  match data.get? i with
  | Option.some v => Except.ok v
  | Option.none => Except.error DecodeErr.indexError

/-- Python `int(x)` truncates toward zero. -/
def pyInt : Val → Except DecodeErr Int
  | Val.int i => Except.ok i
  | Val.num q => Except.ok (q.num.tdiv (q.den : Int))
  | Val.bool b => Except.ok (if b then 1 else 0)
  | Val.none => Except.error DecodeErr.typeError
  | Val.str _ => Except.error DecodeErr.typeError

/-- `_parse_side`: a dict literal keyed by the ints 1, 0, -1 with
`.get(side, "unknown")`.  Python dict lookup equates `1`, `1.0` and
`True` (equal hashable values), so bools and integral floats hit the
int keys; every other value misses and yields `"unknown"`. -/
def sideKey : Val → Option Int
  | Val.int i => Option.some i
  | Val.bool b => Option.some (if b then 1 else 0)
  | Val.num q => if q.den = 1 then Option.some q.num else Option.none
  | _ => Option.none

/-- `_parse_side(side)` as written in both `FundingCredit` and
`FundingLoan`: exact match on 1 / 0 / -1, default `"unknown"`. -/
def parseSide (v : Val) : String :=
  match sideKey v with
  | Option.some k =>
      if k = 1 then "lender"
      else if k = 0 then "both"
      else if k = -1 then "borrower"
      else "unknown"
  | Option.none => "unknown"

/-- The conditional expression `float(x) if x is not None else dflt`. -/
def pyFloatOr (v : Val) (dflt : Rat) : Except DecodeErr Rat :=
  if v = Val.none then Except.ok dflt else pyFloat v

/-- The conditional expression `int(x) if x is not None else dflt`. -/
def pyIntOr (v : Val) (dflt : Int) : Except DecodeErr Int :=
  if v = Val.none then Except.ok dflt else pyInt v

/-- `_parse_timestamp(ts)`: `datetime.fromtimestamp(ts/1000).isoformat()
if ts else None`.  A falsy input (None or 0) maps to `None`; otherwise
`ts/1000` requires a numeric value.  The ISO formatting is abstracted:
we keep the epoch-seconds rational. -/
def parseTimestamp (v : Val) : Except DecodeErr (Option Rat) :=
  if truthy v then
    match pyFloat v with
    | Except.ok q => Except.ok (Option.some (q / 1000))
    | Except.error e => Except.error e
  else Except.ok Option.none

/-- The fields stored by `FundingCredit.__init__`. -/
structure FundingCredit where
  credit_id : Val
  symbol : Val
  side : String
  created_at : Option Rat
  updated_at : Option Rat
  amount : Rat
  status : Val
  rate : Rat
  period : Int
  opening_timestamp : Option Rat
  last_payout : Option Rat
  is_notify : Bool
  is_hidden : Bool
  auto_renew : Bool
  rate_real : Rat
  no_close : Bool
  position_pair : Val
deriving DecidableEq, Repr

/-- `FundingCredit.__init__(data)`: positional decode in source order.
Every index through `data[21]` is accessed unconditionally. -/
def FundingCredit.ofData (data : List Val) : Except DecodeErr FundingCredit := do
  let credit_id ← idx data 0
  let symbol ← idx data 1
  let side := parseSide (← idx data 2)
  let created_at ← parseTimestamp (← idx data 3)
  let updated_at ← parseTimestamp (← idx data 4)
  let amount ← pyFloat (← idx data 5)
  let status ← idx data 7
  let rate ← pyFloat (← idx data 11)
  let period ← pyInt (← idx data 12)
  let opening_timestamp ← parseTimestamp (← idx data 13)
  let last_payout ← parseTimestamp (← idx data 14)
  let is_notify := truthy (← idx data 15)
  let is_hidden := truthy (← idx data 16)
  let v18 ← idx data 18
  let auto_renew := truthy v18
  let v19 ← idx data 19
  let rate_real ← pyFloatOr v19 rate
  let no_close := truthy (← idx data 20)
  let position_pair ← idx data 21
  Except.ok {
    credit_id := credit_id, symbol := symbol, side := side,
    created_at := created_at, updated_at := updated_at, amount := amount,
    status := status, rate := rate, period := period,
    opening_timestamp := opening_timestamp, last_payout := last_payout,
    is_notify := is_notify, is_hidden := is_hidden, auto_renew := auto_renew,
    rate_real := rate_real, no_close := no_close, position_pair := position_pair }

/-- The fields stored by `FundingLoan.__init__`. -/
structure FundingLoan where
  loan_id : Val
  symbol : Val
  side : String
  created_at : Option Rat
  updated_at : Option Rat
  amount : Rat
  status : Val
  rate : Rat
  period : Int
  opening_timestamp : Option Rat
  last_payout : Option Rat
  notify : Bool
  hidden : Bool
  renew : Bool
  rate_real : Rat
  no_close : Bool
  position_pair : Val
deriving DecidableEq, Repr

/-- `FundingLoan.__init__(data)`: like the credit decode but fields 11,
12, 15, 16, 18, 20 default when the value is `None` (the index itself
is still accessed), and field 21 is guarded by `len(data) > 21`. -/
def FundingLoan.ofData (data : List Val) : Except DecodeErr FundingLoan := do
  let loan_id ← idx data 0
  let symbol ← idx data 1
  let side := parseSide (← idx data 2)
  let created_at ← parseTimestamp (← idx data 3)
  let updated_at ← parseTimestamp (← idx data 4)
  let amount ← pyFloat (← idx data 5)
  let status ← idx data 7
  let v11 ← idx data 11
  let rate ← pyFloatOr v11 0
  let v12 ← idx data 12
  let period ← pyIntOr v12 0
  let opening_timestamp ← parseTimestamp (← idx data 13)
  let last_payout ← parseTimestamp (← idx data 14)
  let v15 ← idx data 15
  let notify := if v15 = Val.none then false else truthy v15
  let v16 ← idx data 16
  let hidden := if v16 = Val.none then false else truthy v16
  let v18 ← idx data 18
  let renew := if v18 = Val.none then false else truthy v18
  let v19 ← idx data 19
  let rate_real ← pyFloatOr v19 rate
  let v20 ← idx data 20
  let no_close := if v20 = Val.none then false else truthy v20
  let position_pair := data.getD 21 Val.none
  Except.ok {
    loan_id := loan_id, symbol := symbol, side := side,
    created_at := created_at, updated_at := updated_at, amount := amount,
    status := status, rate := rate, period := period,
    opening_timestamp := opening_timestamp, last_payout := last_payout,
    notify := notify, hidden := hidden, renew := renew,
    rate_real := rate_real, no_close := no_close, position_pair := position_pair }

/-- The dictionary produced by `to_dict` on either record class.  The
two dicts share all keys except the id key name (`credit_id` versus
`loan_id`), modelled here as the single field `pos_id`. -/
structure PosDict where
  pos_id : Val
  symbol : Val
  side : String
  amount : Rat
  status : Val
  rate : Rat
  period_days : Int
  created_at : Option Rat
  updated_at : Option Rat
  opening_date : Option Rat
  last_payout : Option Rat
  auto_renew : Bool
  position_pair : Val
  daily_earnings : Rat
  annual_earnings : Rat
deriving DecidableEq, Repr

/-- `FundingCredit.to_dict`: rate is multiplied by 100 ("Convert to
percentage"); earnings are computed from the raw stored rate. -/
def FundingCredit.to_dict (c : FundingCredit) : PosDict :=
  { pos_id := c.credit_id, symbol := c.symbol, side := c.side,
    amount := c.amount, status := c.status, rate := c.rate * 100,
    period_days := c.period, created_at := c.created_at,
    updated_at := c.updated_at, opening_date := c.opening_timestamp,
    last_payout := c.last_payout, auto_renew := c.auto_renew,
    position_pair := c.position_pair,
    daily_earnings := c.amount * c.rate,
    annual_earnings := c.amount * c.rate * 365 }

/-- `FundingLoan.to_dict`: same shape; the earnings use the Python
conditional `x if amount and rate else 0` (float truthiness). -/
def FundingLoan.to_dict (l : FundingLoan) : PosDict :=
  { pos_id := l.loan_id, symbol := l.symbol, side := l.side,
    amount := l.amount, status := l.status, rate := l.rate * 100,
    period_days := l.period, created_at := l.created_at,
    updated_at := l.updated_at, opening_date := l.opening_timestamp,
    last_payout := l.last_payout, auto_renew := l.renew,
    position_pair := l.position_pair,
    daily_earnings := if l.amount ≠ 0 ∧ l.rate ≠ 0 then l.amount * l.rate else 0,
    annual_earnings := if l.amount ≠ 0 ∧ l.rate ≠ 0 then l.amount * l.rate * 365 else 0 }

/-- An element of a top-level feed array: either a scalar or an embedded
array of records (each record a positional field array).  This is the
shape distinction the read loop actually inspects: `data[1]` is compared
against tag strings, and `data[2]` is iterated as a list of records. -/
inductive FElem where
  | v (x : Val)
  | recs (rs : List (List Val))
deriving DecidableEq, Repr

/-- A parsed frame: the JSON either is a top-level array or it is not
(`isinstance(data, list)`). -/
inductive Frame where
  | scalar (x : Val)
  | arr (elems : List FElem)
deriving DecidableEq, Repr

/-- Decode one snapshot element as a credit and keep it only when it is
borrower side (`get_active_loans` inner loop body: per-record `try`,
borrower filter, `to_dict`).  A record that raises is dropped. -/
def decodeBorrowerCredit (r : List Val) : Option PosDict :=
  match FundingCredit.ofData r with
  | Except.ok c => if c.side = "borrower" then Option.some c.to_dict else Option.none
  | Except.error _ => Option.none

/-- Loan analogue of `decodeBorrowerCredit`. -/
def decodeBorrowerLoan (r : List Val) : Option PosDict :=
  match FundingLoan.ofData r with
  | Except.ok l => if l.side = "borrower" then Option.some l.to_dict else Option.none
  | Except.error _ => Option.none

/-- `msg_type == "hb"` after the list/length-2 guard. -/
def isHeartbeat : Frame → Bool
  | Frame.arr (_ :: FElem.v (Val.str "hb") :: _) => true
  | _ => false

/-- The records contributed by one non-heartbeat frame in
`get_active_loans`.  Mirrors the source conditionals: a frame must be a
list of length > 1; only the tags `"fcs"`/`"fls"` with `len(data) > 2`
reach the record loop (the update tags `"fcn"`, `"fcu"`, `"fln"`,
`"flu"` pass the membership test but fail the snapshot condition and
contribute nothing); a `data[2]` that is not a record array raises,
which the message-level `try` absorbs, contributing nothing. -/
def processFrame : Frame → List PosDict
  | Frame.scalar _ => []
  | Frame.arr (_ :: e1 :: rest) =>
      match e1 with
      | FElem.v (Val.str tag) =>
          if tag = "hb" then []
          else if tag = "fcs" ∨ tag = "fcn" ∨ tag = "fcu" then
            if tag = "fcs" then
              match rest with
              | FElem.recs rs :: _ => rs.filterMap decodeBorrowerCredit
              | _ => []
            else []
          else if tag = "fls" ∨ tag = "fln" ∨ tag = "flu" then
            if tag = "fls" then
              match rest with
              | FElem.recs rs :: _ => rs.filterMap decodeBorrowerLoan
              | _ => []
            else []
          else []
      | _ => []
  | Frame.arr _ => []

/-- One `ws.recv()` outcome inside the read loop.  `parseErr` is a
received message `json.loads` rejects (the counter was already
incremented); `recvErr` is a non-fatal receive exception (raised before
the counter increment); `closed` is the "connection is closed" error the
loop re-raises. -/
inductive RecvEvent where
  | frame (f : Frame)
  | parseErr
  | recvErr
  | closed
deriving DecidableEq, Repr

/-- Read-loop failure: the re-raised connection-closed error. -/
inductive ReadErr where
  | connectionClosed
deriving DecidableEq, Repr

/-- The `while message_count < max_messages` loop of `get_active_loans`:
`budget` is `max_messages - message_count`; a receive on an exhausted
stream behaves like a receive on a dead socket (connection closed).
After a non-heartbeat frame the loop breaks as soon as `loans` is
non-empty. -/
def readLoop : List RecvEvent → Nat → List PosDict → Except ReadErr (List PosDict)
  | _, 0, acc => Except.ok acc
  | [], _ + 1, _ => Except.error ReadErr.connectionClosed
  | ev :: rest, b + 1, acc =>
      match ev with
      | RecvEvent.closed => Except.error ReadErr.connectionClosed
      | RecvEvent.recvErr => readLoop rest (b + 1) acc
      | RecvEvent.parseErr => readLoop rest b acc
      | RecvEvent.frame f =>
          if isHeartbeat f then readLoop rest b acc
          else if (acc ++ processFrame f).isEmpty then
            readLoop rest b (acc ++ processFrame f)
          else Except.ok (acc ++ processFrame f)

/-- A frame observed while waiting for the auth ack: a JSON object
(dict) with its field list, or a JSON array. -/
inductive AFrame where
  | obj (fields : List (String × Val))
  | arr (elems : List Val)
deriving DecidableEq, Repr

/-- `data[key]` lookup on a decoded JSON object (first matching key). -/
def lookupField : List (String × Val) → String → Option Val
  | [], _ => Option.none
  | (k, v) :: rest, key => if k = key then Option.some v else lookupField rest key

/-- Errors out of the auth wait loop: transport connect failure, a
`KeyError` from subscripting a dict that lacks the accessed key, or the
exception raised on a non-OK auth status. -/
inductive AuthErr where
  | connectError
  | keyError
  | authenticationFailed
deriving DecidableEq, Repr

/-- The `for message in self.ws` wait loop shared by
`connect_and_authenticate` and `reconnect`: a non-dict frame is
skipped; a dict is subscripted at `"event"` (KeyError when absent); an
`"auth"` event with status ≠ `"OK"` raises; status `"OK"` returns True.
If the iterator ends without an ack the function falls off the end and
returns None (modelled `Except.ok false`). -/
def authLoop : List AFrame → Except AuthErr Bool
  | [] => Except.ok false
  | AFrame.arr _ :: rest => authLoop rest
  | AFrame.obj fs :: rest =>
      match lookupField fs "event" with
      | Option.none => Except.error AuthErr.keyError
      | Option.some ev =>
          if ev = Val.str "auth" then
            match lookupField fs "status" with
            | Option.none => Except.error AuthErr.keyError
            | Option.some st =>
                if st = Val.str "OK" then Except.ok true
                else Except.error AuthErr.authenticationFailed
          else authLoop rest

/-- The connection-level attributes of `BitfinexService`: whether
`self.ws` holds a (truthy) connection object and the `self.is_connected`
flag. -/
structure ServiceState where
  wsOpen : Bool
  isConnected : Bool
deriving DecidableEq, Repr

/-- `__init__`: `self.ws = None`, `self.is_connected = False`. -/
def initState : ServiceState := { wsOpen := false, isConnected := false }

/-- `close()`: when `self.ws` is set, close it and clear
`is_connected`; `self.ws` itself is left assigned (a closed connection
object is still truthy). -/
def closeState (s : ServiceState) : ServiceState :=
  if s.wsOpen then { s with isConnected := false } else s

/-- `connect_and_authenticate()`: assigns `self.ws` on a successful
connect, then runs the auth wait loop.  `self.is_connected` is never
written on any path. -/
def connect_and_authenticate (connectOk : Bool) (frames : List AFrame)
    (s : ServiceState) : Except AuthErr Bool × ServiceState :=
  if connectOk then
    ((authLoop frames), { s with wsOpen := true })
  else (Except.error AuthErr.connectError, s)

/-- `reconnect()`: best-effort close and clear of the old state, fresh
connect and auth; only on a successful ack does it set
`self.is_connected = True`; on failure it resets both fields. -/
def reconnect (connectOk : Bool) (frames : List AFrame)
    (_s : ServiceState) : Except AuthErr Bool × ServiceState :=
  if connectOk then
    match authLoop frames with
    | Except.ok true => (Except.ok true, { wsOpen := true, isConnected := true })
    | Except.ok false => (Except.ok false, { wsOpen := true, isConnected := false })
    | Except.error e => (Except.error e, { wsOpen := false, isConnected := false })
  else (Except.error AuthErr.connectError, { wsOpen := false, isConnected := false })

/-- Failure of `get_active_loans`: a re-raised connect/auth exception or
the re-raised connection-closed read error. -/
inductive GAErr where
  | auth (e : AuthErr)
  | read
deriving DecidableEq, Repr

/-- The fixed `max_messages = 10` of the read loop. -/
def maxMessages : Nat := 10

/-- Tail of `get_active_loans` once a connection is in place: run the
read loop, then close unless `maintain_connection`; a connection-closed
error propagates through the outer `except`, which also closes unless
maintaining, and re-raises.  The final `Bool` records whether this call
ran `connect_and_authenticate` (for the reconnection-policy claims). -/
def runRead (s : ServiceState) (events : List RecvEvent) (maintain : Bool)
    (didConnect : Bool) : Except GAErr (List PosDict) × ServiceState × Bool :=
  match readLoop events maxMessages [] with
  | Except.error _ =>
      (Except.error GAErr.read, (if maintain then s else closeState s), didConnect)
  | Except.ok loans =>
      (Except.ok loans, (if maintain then s else closeState s), didConnect)

/-- `get_active_loans(maintain_connection)`: when `self.ws` is unset or
`self.is_connected` is false it calls `connect_and_authenticate` (an
exception there reaches the outer `except`: close unless maintaining,
re-raise; a falsy return yields `[]` directly); then the read loop as in
`runRead`.  No call to `reconnect` occurs anywhere in this function. -/
def get_active_loans (s : ServiceState) (connectOk : Bool)
    (authFrames : List AFrame) (events : List RecvEvent) (maintain : Bool) :
    Except GAErr (List PosDict) × ServiceState × Bool :=
  if s.wsOpen ∧ s.isConnected then
    runRead s events maintain false
  else
    match connect_and_authenticate connectOk authFrames s with
    | (Except.error e, s2) =>
        (Except.error (GAErr.auth e), (if maintain then s2 else closeState s2), true)
    | (Except.ok false, s2) => (Except.ok [], s2, true)
    | (Except.ok true, s2) => runRead s2 events maintain true

/-- `main.py` route `get_loans`: calls
`get_active_loans(maintain_connection=True)` and converts any raised
exception into an HTTP 500 error response. -/
def get_loans (s : ServiceState) (connectOk : Bool) (authFrames : List AFrame)
    (events : List RecvEvent) : Except Nat (List PosDict) :=
  match (get_active_loans s connectOk authFrames events true).1 with
  | Except.ok loans => Except.ok loans
  | Except.error _ => Except.error 500

/-- One entry of the list returned by `close_loans`. -/
structure CloseResult where
  loan_id : Int
  success : Bool
  message : String
  status_code : Option Int
deriving DecidableEq, Repr

/-- The outcome of the network interaction for one id inside
`close_loans`: an HTTP response with a status code and body text, or one
of the exception paths (the connectivity pre-check raising
`ConnectionError`, a `requests` connection error or request error on the
POST, or any other exception). -/
inductive CloseOutcome where
  | response (status : Int) (body : String)
  | connectivityError (msg : String)
  | requestsConnError (msg : String)
  | requestError (msg : String)
  | otherError (msg : String)
deriving DecidableEq, Repr

/-- The body of the per-id loop of `close_loans`: every outcome appends
exactly one result dict; every exception path records
`"status_code": None`; success is `status_code == 200`. -/
def closeLoan (id : Int) (o : CloseOutcome) : CloseResult :=
  match o with
  | CloseOutcome.response st body =>
      { loan_id := id, success := st = 200, message := body,
        status_code := Option.some st }
  | CloseOutcome.connectivityError m =>
      { loan_id := id, success := false,
        message := "Error closing loan " ++ toString id ++
          ": Cannot connect to Bitfinex API: " ++ m,
        status_code := Option.none }
  | CloseOutcome.requestsConnError m =>
      { loan_id := id, success := false, message := "Connection error: " ++ m,
        status_code := Option.none }
  | CloseOutcome.requestError m =>
      { loan_id := id, success := false, message := "Request error: " ++ m,
        status_code := Option.none }
  | CloseOutcome.otherError m =>
      { loan_id := id, success := false,
        message := "Error closing loan " ++ toString id ++ ": " ++ m,
        status_code := Option.none }

/-- Sequential per-id loop of `close_loans`; the k-th request's network
outcome is `w k`. -/
def closeLoansGo : List Int → (Nat → CloseOutcome) → Nat → List CloseResult
  | [], _, _ => []
  | i :: rest, w, k => closeLoan i (w k) :: closeLoansGo rest w (k + 1)

/-- `close_loans(loan_ids)`: one result per requested id, in order. -/
def close_loans (ids : List Int) (w : Nat → CloseOutcome) : List CloseResult :=
  closeLoansGo ids w 0

/-- One formatted funding-book level, as built in `get_funding_book`. -/
structure BookLevel where
  rate : Rat
  period : Int
  count : Int
  amount : Rat
deriving DecidableEq, Repr

/-- Python `int()` truncation toward zero on a rational. -/
def ratTrunc (q : Rat) : Int := q.num.tdiv (q.den : Int)

/-- The HTTP interaction of `get_funding_book`: a non-ok response, a
body `response.json()` rejects, or a parsed book (each row a numeric
array as the public book endpoint sends). -/
inductive BookResp where
  | httpFailure
  | parseFailure
  | okData (entries : List (List Rat))
deriving DecidableEq, Repr

/-- `{"rate": float(entry[0]), "period": int(entry[1]), "count":
int(entry[2]), "amount": float(entry[3])}`. -/
def formatBookEntry (e : List Rat) : BookLevel :=
  { rate := e.getD 0 0, period := ratTrunc (e.getD 1 0),
    count := ratTrunc (e.getD 2 0), amount := e.getD 3 0 }

/-- Comparator of the final `formatted_book.sort(key=lambda x:
x['rate'])`. -/
def rateLE (a b : BookLevel) : Prop := a.rate ≤ b.rate

instance : DecidableRel rateLE := fun a b => inferInstanceAs (Decidable (a.rate ≤ b.rate))

instance : IsTotal BookLevel rateLE := ⟨fun a b => le_total a.rate b.rate⟩

instance : IsTrans BookLevel rateLE := ⟨fun _ _ _ h h' => le_trans h h'⟩

instance : IsRefl BookLevel rateLE := ⟨fun a => le_refl a.rate⟩

/-- `get_funding_book(symbol)`: a failed or unparseable response yields
`[]`; otherwise rows with `float(entry[3]) > 0` are formatted and the
result is sorted ascending by rate (Python `list.sort` is stable, as is
`List.insertionSort`).  A row shorter than 4 elements raises inside the
loop and the outer `except` turns the whole call into `[]`. -/
def get_funding_book (resp : BookResp) : List BookLevel :=
  match resp with
  | BookResp.httpFailure => []
  | BookResp.parseFailure => []
  | BookResp.okData entries =>
      if entries.all (fun e => 4 ≤ e.length) then
        List.insertionSort rateLE
          ((entries.filter (fun e => 0 < e.getD 3 0)).map formatBookEntry)
      else []

/-- A well-typed 22-field borrower credit record (schema positions as
the feed sends them; absent optional scalars are `null`). -/
def creditRec22 : List Val :=
  [Val.int 1, Val.str "fUSD", Val.int (-1), Val.int 0, Val.int 0, Val.num 100,
   Val.none, Val.str "ACTIVE", Val.none, Val.none, Val.none, Val.num 2,
   Val.int 30, Val.int 0, Val.int 0, Val.none, Val.none, Val.none, Val.none,
   Val.none, Val.none, Val.str "fUSD"]

/-- The same record truncated to its first six (mandatory) fields. -/
def creditRec6 : List Val := creditRec22.take 6

/-- The record `creditRec22` decodes to. -/
def creditEx : FundingCredit :=
  { credit_id := Val.int 1, symbol := Val.str "fUSD", side := "borrower",
    created_at := Option.none, updated_at := Option.none, amount := 100,
    status := Val.str "ACTIVE", rate := 2, period := 30,
    opening_timestamp := Option.none, last_payout := Option.none,
    is_notify := false, is_hidden := false, auto_renew := false,
    rate_real := 2, no_close := false, position_pair := Val.str "fUSD" }

/-- A well-typed 21-field borrower loan record whose rate field
(index 11) is `null`. -/
def loanRec21 : List Val :=
  [Val.int 2, Val.str "fUSD", Val.int (-1), Val.int 0, Val.int 0, Val.num 50,
   Val.none, Val.str "ACTIVE", Val.none, Val.none, Val.none, Val.none,
   Val.none, Val.int 0, Val.int 0, Val.none, Val.none, Val.none, Val.none,
   Val.none, Val.none]

/-- The record `loanRec21` decodes to. -/
def loanEx : FundingLoan :=
  { loan_id := Val.int 2, symbol := Val.str "fUSD", side := "borrower",
    created_at := Option.none, updated_at := Option.none, amount := 50,
    status := Val.str "ACTIVE", rate := 0, period := 0,
    opening_timestamp := Option.none, last_payout := Option.none,
    notify := false, hidden := false, renew := false,
    rate_real := 0, no_close := false, position_pair := Val.none }

/-- A heartbeat frame `[0, "hb"]`. -/
def hbFrame : Frame := Frame.arr [FElem.v (Val.int 0), FElem.v (Val.str "hb")]

/-- A credit snapshot frame `[0, "fcs", records]`. -/
def creditSnapshotFrame (rs : List (List Val)) : Frame :=
  Frame.arr [FElem.v (Val.int 0), FElem.v (Val.str "fcs"), FElem.recs rs]

/-- A single-record credit-new update frame `[0, "fcn", record]`. -/
def creditUpdateFrame (r : List Val) : Frame :=
  Frame.arr [FElem.v (Val.int 0), FElem.v (Val.str "fcn"), FElem.recs [r]]

/-- A successful auth ack. -/
def okAck : AFrame := AFrame.obj [("event", Val.str "auth"), ("status", Val.str "OK")]

/-- An auth ack with a non-OK status. -/
def failAck : AFrame := AFrame.obj [("event", Val.str "auth"), ("status", Val.str "FAIL")]

/-- A JSON-object frame that carries no `"event"` key. -/
def noEventObj : AFrame := AFrame.obj [("chanId", Val.int 5)]

/-- Propositional equality on `Except` results is decidable (used to
evaluate the model on concrete inputs). -/
instance {e a : Type} [DecidableEq e] [DecidableEq a] : DecidableEq (Except e a)
  | Except.ok x, Except.ok y =>
      if h : x = y then Decidable.isTrue (by rw [h])
      else Decidable.isFalse (fun hc => h (Except.ok.inj hc))
  | Except.ok _, Except.error _ => Decidable.isFalse (fun hc => Except.noConfusion hc)
  | Except.error _, Except.ok _ => Decidable.isFalse (fun hc => Except.noConfusion hc)
  | Except.error x, Except.error y =>
      if h : x = y then Decidable.isTrue (by rw [h])
      else Decidable.isFalse (fun hc => h (Except.error.inj hc))

/-- Inversion of a successful `Except` bind. -/
theorem bindOk {α β : Type} {m : Except DecodeErr α} {k : α → Except DecodeErr β}
    {c : β} : m >>= k = Except.ok c ↔ ∃ v, m = Except.ok v ∧ k v = Except.ok c := by
  cases m with
  | ok v =>
      constructor
      · intro h
        exact ⟨v, rfl, h⟩
      · rintro ⟨w, hw, hkw⟩
        cases hw
        exact hkw
  | error e =>
      constructor
      · intro h
        exact absurd h (by simp [Bind.bind, Except.bind])
      · rintro ⟨w, hw, _⟩
        exact absurd hw (by simp)

/-- A successful positional access implies the index is in range. -/
theorem idx_ok_lt {d : List Val} {i : Nat} {v : Val}
    (h : idx d i = Except.ok v) : i < d.length := by
  by_contra hle
  push_neg at hle
  unfold idx at h
  rw [List.get?_eq_none.mpr hle] at h
  exact Except.noConfusion h

theorem creditOfData_spec {d : List Val} {c : FundingCredit}
    (h : FundingCredit.ofData d = Except.ok c) :
    22 ≤ d.length ∧ (∃ v, idx d 2 = Except.ok v ∧ c.side = parseSide v) ∧
      (∃ v, idx d 11 = Except.ok v ∧ pyFloat v = Except.ok c.rate) := by
  simp only [FundingCredit.ofData, bindOk, Except.ok.injEq] at h
  obtain ⟨v0, h0, h⟩ := h
  obtain ⟨v1, h1, h⟩ := h
  obtain ⟨v2, h2, h⟩ := h
  obtain ⟨v3, h3, h⟩ := h
  obtain ⟨t3, ht3, h⟩ := h
  obtain ⟨v4, h4, h⟩ := h
  obtain ⟨t4, ht4, h⟩ := h
  obtain ⟨v5, h5, h⟩ := h
  obtain ⟨a5, ha5, h⟩ := h
  obtain ⟨v7, h7, h⟩ := h
  obtain ⟨v11, h11, h⟩ := h
  obtain ⟨r11, hr11, h⟩ := h
  obtain ⟨v12, h12, h⟩ := h
  obtain ⟨p12, hp12, h⟩ := h
  obtain ⟨v13, h13, h⟩ := h
  obtain ⟨t13, ht13, h⟩ := h
  obtain ⟨v14, h14, h⟩ := h
  obtain ⟨t14, ht14, h⟩ := h
  obtain ⟨v15, h15, h⟩ := h
  obtain ⟨v16, h16, h⟩ := h
  obtain ⟨v18, h18, h⟩ := h
  obtain ⟨v19, h19, h⟩ := h
  obtain ⟨rr, hrr, h⟩ := h
  obtain ⟨v20, h20, h⟩ := h
  obtain ⟨v21, h21, h⟩ := h
  subst h
  exact ⟨by have := idx_ok_lt h21; omega, ⟨v2, h2, rfl⟩, ⟨v11, h11, hr11⟩⟩

theorem loanOfData_spec {d : List Val} {l : FundingLoan}
    (h : FundingLoan.ofData d = Except.ok l) :
    21 ≤ d.length ∧ (∃ v, idx d 2 = Except.ok v ∧ l.side = parseSide v) ∧
      (∃ v, idx d 11 = Except.ok v ∧ pyFloatOr v 0 = Except.ok l.rate) := by
  simp only [FundingLoan.ofData, bindOk, Except.ok.injEq] at h
  obtain ⟨v0, h0, h⟩ := h
  obtain ⟨v1, h1, h⟩ := h
  obtain ⟨v2, h2, h⟩ := h
  obtain ⟨v3, h3, h⟩ := h
  obtain ⟨t3, ht3, h⟩ := h
  obtain ⟨v4, h4, h⟩ := h
  obtain ⟨t4, ht4, h⟩ := h
  obtain ⟨v5, h5, h⟩ := h
  obtain ⟨a5, ha5, h⟩ := h
  obtain ⟨v7, h7, h⟩ := h
  obtain ⟨v11, h11, h⟩ := h
  obtain ⟨r11, hr11, h⟩ := h
  obtain ⟨v12, h12, h⟩ := h
  obtain ⟨p12, hp12, h⟩ := h
  obtain ⟨v13, h13, h⟩ := h
  obtain ⟨t13, ht13, h⟩ := h
  obtain ⟨v14, h14, h⟩ := h
  obtain ⟨t14, ht14, h⟩ := h
  obtain ⟨v15, h15, h⟩ := h
  obtain ⟨v16, h16, h⟩ := h
  obtain ⟨v18, h18, h⟩ := h
  obtain ⟨v19, h19, h⟩ := h
  obtain ⟨rr, hrr, h⟩ := h
  obtain ⟨v20, h20, h⟩ := h
  subst h
  exact ⟨by have := idx_ok_lt h20; omega, ⟨v2, h2, rfl⟩, ⟨v11, h11, hr11⟩⟩

/-- C1 counterexample: the raw side value 2 is positive, yet
`_parse_side` maps it to `"unknown"`, not `"lender"`: the code matches
the exact keys 1 / 0 / -1, not the sign. -/
theorem c1_sign_rule_counterexample :
    (2 : Int) > 0 ∧ parseSide (Val.int 2) = "unknown" ∧
      ("unknown" : String) ≠ "lender" := by
  decide

/-- C1 amended: `side` is derived from the raw integer at index 2 by
exact match — 1 maps to lender, 0 to both, -1 to borrower, and any
other value (positive or negative included) to unknown, never an
error — and both decoders store exactly `_parse_side(data[2])`. -/
theorem c1_side_mapping :
    (∀ i : Int, parseSide (Val.int i) =
      if i = 1 then "lender" else if i = 0 then "both"
      else if i = -1 then "borrower" else "unknown") ∧
    (∀ d c, FundingCredit.ofData d = Except.ok c →
      ∃ v, idx d 2 = Except.ok v ∧ c.side = parseSide v) ∧
    (∀ d l, FundingLoan.ofData d = Except.ok l →
      ∃ v, idx d 2 = Except.ok v ∧ l.side = parseSide v) := by
  refine ⟨fun i => ?_, fun d c h => (creditOfData_spec h).2.1,
    fun d l h => (loanOfData_spec h).2.1⟩
  simp [parseSide, sideKey]

/-- C1 witness: the mapping instantiated on a concrete decoded record. -/
theorem c1_side_mapping_witness :
    ∃ v, idx creditRec22 2 = Except.ok v ∧ creditEx.side = parseSide v :=
  c1_side_mapping.2.1 creditRec22 creditEx (by decide)

/-- C2 counterexample: a well-typed record with exactly the six
mandatory fields fails to decode (the constructor indexes `data[7]`
onward unconditionally), contradicting "with at least the first six
fields present, decoding succeeds". -/
theorem c2_short_record_counterexample :
    creditRec6.length = 6 ∧
    FundingCredit.ofData creditRec6 = Except.error DecodeErr.indexError ∧
    FundingLoan.ofData creditRec6 = Except.error DecodeErr.indexError := by
  decide

/-- C2 amended: decoding succeeds only when every unconditionally
indexed position exists — a credit record needs at least 22 fields and
a loan record at least 21 (index 21 alone is optional for loans); in
particular any array with fewer than 6 fields fails; a failed decode
yields no record at all, and inside a snapshot a failing record is
dropped while every record of the batch is still processed. -/
theorem c2_mandatory_length :
    (∀ d c, FundingCredit.ofData d = Except.ok c → 22 ≤ d.length) ∧
    (∀ d l, FundingLoan.ofData d = Except.ok l → 21 ≤ d.length) ∧
    (∀ d, d.length < 6 →
      (∀ c, FundingCredit.ofData d ≠ Except.ok c) ∧
      (∀ l, FundingLoan.ofData d ≠ Except.ok l)) ∧
    (∀ r e, FundingCredit.ofData r = Except.error e →
      decodeBorrowerCredit r = Option.none) ∧
    (∀ (e0 : FElem) rs rest,
      processFrame (Frame.arr (e0 :: FElem.v (Val.str "fcs") :: FElem.recs rs :: rest)) =
        rs.filterMap decodeBorrowerCredit) := by
  refine ⟨fun d c h => (creditOfData_spec h).1,
    fun d l h => (loanOfData_spec h).1, fun d hlen => ⟨?_, ?_⟩, ?_, ?_⟩
  · intro c hc
    have := (creditOfData_spec hc).1
    omega
  · intro l hl
    have := (loanOfData_spec hl).1
    omega
  · intro r e h
    simp [decodeBorrowerCredit, h]
  · intro e0 rs rest
    rfl

/-- C2 witness: the length bound instantiated on a concrete record. -/
theorem c2_mandatory_length_witness : 22 ≤ creditRec22.length :=
  c2_mandatory_length.1 creditRec22 creditEx (by decide)

/-- C3 counterexample: a concrete decoded credit stores the raw rate 2
but its output dict carries rate 200 — the returned rate is the input
multiplied by 100 ("Convert to percentage"), so it does not round-trip
unchanged. -/
theorem c3_rate_counterexample :
    (FundingCredit.ofData creditRec22).map (fun c => c.rate) = Except.ok 2 ∧
    (FundingCredit.ofData creditRec22).map (fun c => c.to_dict.rate) = Except.ok 200 ∧
    ((200 : Rat) ≠ 2) := by
  have hok : FundingCredit.ofData creditRec22 = Except.ok creditEx := by decide
  refine ⟨?_, ?_, by norm_num⟩
  · rw [hok]
    rfl
  · rw [hok]
    simp only [Except.map]
    norm_num [FundingCredit.to_dict, creditEx]

/-- C3 amended: the rate in the returned dict equals the raw input
period rate multiplied by 100 (a percentage); `daily_earnings = amount *
rate` (raw rate) and `annual_earnings = amount * rate * 365` hold
exactly for every decoded credit and loan (a loan whose amount or rate
is zero takes the explicit 0 branch, which coincides); a loan whose raw
rate field is null decodes with rate 0 and zero earnings, while a credit
with a null rate fails to decode. -/
theorem c3_rate_annualization :
    (∀ c : FundingCredit, c.to_dict.rate = c.rate * 100 ∧
      c.to_dict.daily_earnings = c.amount * c.rate ∧
      c.to_dict.annual_earnings = c.amount * c.rate * 365) ∧
    (∀ l : FundingLoan, l.to_dict.rate = l.rate * 100 ∧
      l.to_dict.daily_earnings = l.amount * l.rate ∧
      l.to_dict.annual_earnings = l.amount * l.rate * 365) ∧
    (∀ d c, FundingCredit.ofData d = Except.ok c →
      idx d 11 ≠ Except.ok Val.none) ∧
    (∀ d l, FundingLoan.ofData d = Except.ok l → idx d 11 = Except.ok Val.none →
      l.rate = 0 ∧ l.to_dict.daily_earnings = 0 ∧ l.to_dict.annual_earnings = 0) := by
  refine ⟨fun c => ⟨rfl, rfl, rfl⟩, fun l => ⟨rfl, ?_, ?_⟩, ?_, ?_⟩
  · by_cases h : l.amount ≠ 0 ∧ l.rate ≠ 0
    · simp [FundingLoan.to_dict, h]
    · have h0 : l.amount * l.rate = 0 := by
        rcases not_and_or.mp h with h1 | h1 <;> push_neg at h1 <;> simp [h1]
      simp [FundingLoan.to_dict, h, h0]
  · by_cases h : l.amount ≠ 0 ∧ l.rate ≠ 0
    · simp [FundingLoan.to_dict, h]
    · have h0 : l.amount * l.rate = 0 := by
        rcases not_and_or.mp h with h1 | h1 <;> push_neg at h1 <;> simp [h1]
      simp [FundingLoan.to_dict, h, h0, mul_assoc]
  · intro d c h hnull
    obtain ⟨v, hv, hr⟩ := (creditOfData_spec h).2.2
    rw [hv] at hnull
    cases Except.ok.inj hnull
    exact Except.noConfusion hr
  · intro d l h hnull
    obtain ⟨v, hv, hr⟩ := (loanOfData_spec h).2.2
    rw [hv] at hnull
    cases Except.ok.inj hnull
    have hrate : l.rate = 0 := by
      have := hr
      simp [pyFloatOr] at this
      exact this.symm
    refine ⟨hrate, ?_, ?_⟩ <;> simp [FundingLoan.to_dict, hrate]

/-- C3 witness: the null-rate branch instantiated on a concrete loan
record whose index-11 field is null. -/
theorem c3_rate_annualization_witness :
    loanEx.rate = 0 ∧ loanEx.to_dict.daily_earnings = 0 ∧
      loanEx.to_dict.annual_earnings = 0 :=
  c3_rate_annualization.2.2.2 loanRec21 loanEx (by decide) (by decide)

/-- The per-id loop emits the requested ids in order, whatever the
network outcomes. -/
theorem closeLoansGo_map_id (ids : List Int) :
    ∀ (w : Nat → CloseOutcome) (k : Nat),
      (closeLoansGo ids w k).map (fun r => r.loan_id) = ids := by
  induction ids with
  | nil => intro w k; rfl
  | cons i rest ih =>
      intro w k
      simp [closeLoansGo, closeLoan]
      constructor
      · cases w k <;> rfl
      · exact ih w (k + 1)

/-- C5 confirmed: `close_loans` returns exactly one CloseResult per
requested id, in input order (empty in, empty out); every exception
path — the connectivity pre-check included — records a failed result
with `status_code = None` instead of raising, so one id's failure never
aborts the remaining ids. -/
theorem c5_one_result_per_id :
    (∀ w, close_loans [] w = []) ∧
    (∀ ids w, (close_loans ids w).map (fun r => r.loan_id) = ids) ∧
    (∀ i m, (closeLoan i (CloseOutcome.connectivityError m)).status_code = Option.none ∧
      (closeLoan i (CloseOutcome.connectivityError m)).success = false) ∧
    (∀ i m, (closeLoan i (CloseOutcome.requestsConnError m)).status_code = Option.none ∧
      (closeLoan i (CloseOutcome.requestsConnError m)).success = false) := by
  exact ⟨fun w => rfl, fun ids w => closeLoansGo_map_id ids w 0,
    fun i m => ⟨rfl, rfl⟩, fun i m => ⟨rfl, rfl⟩⟩

/-- C7 counterexample: a JSON object lacking an `"event"` key, received
before the auth ack, raises a `KeyError` (the code subscripts
`data["event"]` unguarded) instead of being discarded — with the same
ack alone, authentication succeeds. -/
theorem c7_missing_event_counterexample :
    authLoop [noEventObj, okAck] = Except.error AuthErr.keyError ∧
    authLoop [okAck] = Except.ok true := by
  decide

/-- C7 amended: an auth ack with non-OK status raises
AuthenticationFailed; array frames, and object frames whose `"event"`
field is present but differs from `"auth"`, are discarded until the ack
arrives; but an object frame lacking an `"event"` key raises a KeyError
that aborts the connection attempt. -/
theorem c7_auth_wait :
    (∀ fs rest, lookupField fs "event" = Option.none →
      authLoop (AFrame.obj fs :: rest) = Except.error AuthErr.keyError) ∧
    (∀ fs rest v, lookupField fs "event" = Option.some v → v ≠ Val.str "auth" →
      authLoop (AFrame.obj fs :: rest) = authLoop rest) ∧
    (∀ es rest, authLoop (AFrame.arr es :: rest) = authLoop rest) ∧
    (∀ fs rest st, lookupField fs "event" = Option.some (Val.str "auth") →
      lookupField fs "status" = Option.some st → st ≠ Val.str "OK" →
      authLoop (AFrame.obj fs :: rest) = Except.error AuthErr.authenticationFailed) := by
  refine ⟨fun fs rest h => by simp [authLoop, h],
    fun fs rest v h hne => by simp [authLoop, h, hne],
    fun es rest => rfl,
    fun fs rest st he hs hne => by simp [authLoop, he, hs, hne]⟩

/-- C7 witness: the non-OK-ack branch instantiated on a concrete
`FAIL` ack. -/
theorem c7_auth_wait_witness :
    authLoop (AFrame.obj [("event", Val.str "auth"), ("status", Val.str "FAIL")] :: []) =
      Except.error AuthErr.authenticationFailed :=
  c7_auth_wait.2.2.2 [("event", Val.str "auth"), ("status", Val.str "FAIL")] []
    (Val.str "FAIL") (by decide) (by decide) (by decide)

/-- The concrete borrower record decodes and survives the borrower
filter. -/
theorem decodeBorrowerCredit_creditRec22 :
    decodeBorrowerCredit creditRec22 = Option.some creditEx.to_dict := by
  have hok : FundingCredit.ofData creditRec22 = Except.ok creditEx := by decide
  simp [decodeBorrowerCredit, hok, creditEx]

/-- C6 counterexample: a single-record credit-new update frame
(`"fcn"`) whose embedded record decodes to a borrower position
contributes nothing — a full budget of frames headed by that update
yields an empty result, contradicting "has its one embedded record
decoded and contributed to the result". -/
theorem c6_update_counterexample :
    readLoop (RecvEvent.frame (creditUpdateFrame creditRec22) ::
        List.replicate 9 (RecvEvent.frame hbFrame)) maxMessages [] = Except.ok [] ∧
    decodeBorrowerCredit creditRec22 = Option.some creditEx.to_dict := by
  refine ⟨by decide, decodeBorrowerCredit_creditRec22⟩

/-- C6 amended: every element of a Snapshot-kind frame's embedded array
is decoded (`fcs`/`fls`); single-record Update-kind frames
(`fcn`/`fcu`/`fln`/`flu`) are recognized but contribute nothing, their
record is never decoded; Heartbeat and Unrecognized frames are skipped
but still consume one unit of the maxFrames budget. -/
theorem c6_frame_processing :
    (∀ (e0 : FElem) rs rest,
      processFrame (Frame.arr (e0 :: FElem.v (Val.str "fcs") :: FElem.recs rs :: rest)) =
        rs.filterMap decodeBorrowerCredit) ∧
    (∀ (e0 : FElem) rs rest,
      processFrame (Frame.arr (e0 :: FElem.v (Val.str "fls") :: FElem.recs rs :: rest)) =
        rs.filterMap decodeBorrowerLoan) ∧
    (∀ (e0 : FElem) rest tag,
      (tag = "fcn" ∨ tag = "fcu" ∨ tag = "fln" ∨ tag = "flu") →
      processFrame (Frame.arr (e0 :: FElem.v (Val.str tag) :: rest)) = []) ∧
    (∀ f rest b acc, isHeartbeat f = true →
      readLoop (RecvEvent.frame f :: rest) (b + 1) acc = readLoop rest b acc) ∧
    (∀ f rest b, isHeartbeat f = false → processFrame f = [] →
      readLoop (RecvEvent.frame f :: rest) (b + 1) [] = readLoop rest b []) := by
  refine ⟨fun e0 rs rest => rfl, fun e0 rs rest => rfl, ?_, ?_, ?_⟩
  · rintro e0 rest tag (rfl | rfl | rfl | rfl) <;> rfl
  · intro f rest b acc h
    simp [readLoop, h]
  · intro f rest b h1 h2
    simp [readLoop, h1, h2]

/-- C6 witness: the update-tag branch instantiated on a concrete `fcn`
frame. -/
theorem c6_frame_processing_witness :
    processFrame (Frame.arr (FElem.v (Val.int 0) :: FElem.v (Val.str "fcn") ::
      [FElem.recs [creditRec22]])) = [] :=
  c6_frame_processing.2.2.1 (FElem.v (Val.int 0)) [FElem.recs [creditRec22]]
    "fcn" (Or.inl rfl)

/-- A concrete parsed book used to instantiate the funding-book
theorem. -/
def bookResp0 : BookResp := BookResp.okData [[3, 30, 2, 50]]

/-- The level `bookResp0` formats to. -/
def level0 : BookLevel := { rate := 3, period := 30, count := 2, amount := 50 }

/-- C8 confirmed: for every response, `get_funding_book` returns only
entries with positive amount (ask side), sorted ascending by rate, and
any HTTP or parse failure yields the empty list instead of an error. -/
theorem c8_funding_book :
    (∀ resp x, x ∈ get_funding_book resp → 0 < x.amount) ∧
    (∀ resp, List.Sorted rateLE (get_funding_book resp)) ∧
    get_funding_book BookResp.httpFailure = [] ∧
    get_funding_book BookResp.parseFailure = [] := by
  refine ⟨?_, ?_, rfl, rfl⟩
  · intro resp x hx
    cases resp with
    | httpFailure => simp [get_funding_book] at hx
    | parseFailure => simp [get_funding_book] at hx
    | okData entries =>
        rw [get_funding_book] at hx
        split at hx
        · have hx2 : x ∈ (entries.filter (fun e => 0 < e.getD 3 0)).map formatBookEntry :=
            (List.perm_insertionSort rateLE _).mem_iff.mp hx
          obtain ⟨e, he, hfe⟩ := List.mem_map.mp hx2
          have := List.of_mem_filter he
          rw [← hfe]
          simpa [formatBookEntry] using of_decide_eq_true this
        · simp at hx
  · intro resp
    cases resp with
    | httpFailure => exact List.sorted_nil
    | parseFailure => exact List.sorted_nil
    | okData entries =>
        rw [get_funding_book]
        split
        · exact List.sorted_insertionSort rateLE _
        · exact List.sorted_nil

/-- C8 witness: the positivity bound instantiated on a concrete book. -/
theorem c8_funding_book_witness : 0 < level0.amount :=
  c8_funding_book.1 bookResp0 level0 (by decide)

/-- C9 confirmed: `connect_and_authenticate` never writes
`is_connected` (a successful call leaves it exactly as found, hence
`False` from construction); only `reconnect` sets it `True`; therefore
every `get_active_loans` call starting from a state with
`is_connected = False` — including the state a previous
`maintain_connection=True` call left behind — re-runs
connect-and-authenticate, opening a fresh connection. -/
theorem c9_is_connected_policy :
    (∀ ok fs s, ((connect_and_authenticate ok fs s).2).isConnected = s.isConnected) ∧
    initState.isConnected = false ∧
    (∀ fs s, authLoop fs = Except.ok true →
      ((reconnect true fs s).2).isConnected = true) ∧
    (∀ s ok fs ev m, s.isConnected = false →
      (get_active_loans s ok fs ev m).2.2 = true) ∧
    (∀ s ok fs ev, s.isConnected = false →
      ((get_active_loans s ok fs ev true).2.1).isConnected = false) := by
  refine ⟨?_, rfl, ?_, ?_, ?_⟩
  · intro ok fs s
    cases ok <;> rfl
  · intro fs s h
    simp [reconnect, h]
  · intro s ok fs ev m h
    have hcond : ¬(s.wsOpen = true ∧ s.isConnected = true) := by simp [h]
    rw [get_active_loans, if_neg hcond]
    rcases hca : connect_and_authenticate ok fs s with ⟨r, s2⟩
    match r with
    | Except.error e => rfl
    | Except.ok false => rfl
    | Except.ok true =>
        rcases hrl : readLoop ev maxMessages [] with e | loans <;> simp [runRead, hrl]
  · intro s ok fs ev h
    have hcond : ¬(s.wsOpen = true ∧ s.isConnected = true) := by simp [h]
    rw [get_active_loans, if_neg hcond]
    have hs2 : ((connect_and_authenticate ok fs s).2).isConnected = false := by
      cases ok <;> simpa [connect_and_authenticate] using h
    rcases hca : connect_and_authenticate ok fs s with ⟨r, s2⟩
    rw [hca] at hs2
    match r with
    | Except.error e => simpa using hs2
    | Except.ok false => simpa using hs2
    | Except.ok true =>
        rcases hrl : readLoop ev maxMessages [] with e | loans
        · simpa [runRead, hrl] using hs2
        · simpa [runRead, hrl] using hs2

/-- C9 witness: a first call that keeps the connection open still
leaves `is_connected` false, and the subsequent call reconnects. -/
theorem c9_is_connected_policy_witness :
    (get_active_loans initState true [okAck] [RecvEvent.frame hbFrame] true).2.2 = true :=
  c9_is_connected_policy.2.2.2.1 initState true [okAck] [RecvEvent.frame hbFrame] true rfl

/-- C4 counterexample: a fresh service whose connect and auth succeed
but whose first read hits the connection-closed error: `get_active_loans`
raises (no reconnect is attempted — the function contains no reconnect
call) and the route returns an HTTP 500 error, not an empty list. -/
theorem c4_closed_read_counterexample :
    (get_active_loans initState true [okAck] [RecvEvent.closed] false).1 =
      Except.error GAErr.read ∧
    get_loans initState true [okAck] [RecvEvent.closed] = Except.error 500 := by
  decide

/-- C4 amended: `get_active_loans` performs no reconnect and no retry:
a connection-closed error during the read is re-raised to the caller,
as is any connect/authentication failure; the `get_loans` route turns
any such error into an HTTP 500 response rather than an empty list; an
empty list is returned without raising only when
`connect_and_authenticate` returns a falsy value. -/
theorem c4_error_propagation :
    (∀ (s : ServiceState) fs ev m, authLoop fs = Except.ok true →
      readLoop ev maxMessages [] = Except.error ReadErr.connectionClosed →
      (get_active_loans s true fs ev m).1 = Except.error GAErr.read) ∧
    (∀ (s : ServiceState) fs ev m e, ¬(s.wsOpen = true ∧ s.isConnected = true) →
      authLoop fs = Except.error e →
      (get_active_loans s true fs ev m).1 = Except.error (GAErr.auth e)) ∧
    (∀ s ok fs ev e, (get_active_loans s ok fs ev true).1 = Except.error e →
      get_loans s ok fs ev = Except.error 500) ∧
    (∀ (s : ServiceState) fs ev m, ¬(s.wsOpen = true ∧ s.isConnected = true) →
      authLoop fs = Except.ok false →
      (get_active_loans s true fs ev m).1 = Except.ok []) := by
  refine ⟨?_, ?_, ?_, ?_⟩
  · intro s fs ev m hauth hread
    by_cases hcond : s.wsOpen = true ∧ s.isConnected = true
    · rw [get_active_loans, if_pos hcond]
      simp [runRead, hread]
    · rw [get_active_loans, if_neg hcond]
      simp [connect_and_authenticate, hauth, runRead, hread]
  · intro s fs ev m e hcond hauth
    rw [get_active_loans, if_neg hcond]
    simp [connect_and_authenticate, hauth]
  · intro s ok fs ev e h
    simp [get_loans, h]
  · intro s fs ev m hcond hauth
    rw [get_active_loans, if_neg hcond]
    simp [connect_and_authenticate, hauth]

/-- C4 witness: the connection-closed branch instantiated concretely. -/
theorem c4_error_propagation_witness :
    (get_active_loans initState true [okAck] [RecvEvent.closed] true).1 =
      Except.error GAErr.read :=
  c4_error_propagation.1 initState [okAck] [RecvEvent.closed] true
    (by decide) (by decide)

/-- A surviving credit decode is borrower side. -/
theorem decodeBorrowerCredit_side {r : List Val} {o : PosDict}
    (h : decodeBorrowerCredit r = Option.some o) : o.side = "borrower" := by
  rcases hc : FundingCredit.ofData r with e | c
  · simp [decodeBorrowerCredit, hc] at h
  · simp only [decodeBorrowerCredit, hc] at h
    split_ifs at h with hs
    injection h with h2
    rw [← h2]
    exact hs

/-- A surviving loan decode is borrower side. -/
theorem decodeBorrowerLoan_side {r : List Val} {o : PosDict}
    (h : decodeBorrowerLoan r = Option.some o) : o.side = "borrower" := by
  rcases hc : FundingLoan.ofData r with e | l
  · simp [decodeBorrowerLoan, hc] at h
  · simp only [decodeBorrowerLoan, hc] at h
    split_ifs at h with hs
    injection h with h2
    rw [← h2]
    exact hs

/-- Everything a frame contributes is borrower side. -/
theorem processFrame_borrower (f : Frame) :
    ∀ o ∈ processFrame f, o.side = "borrower" := by
  intro o ho
  cases f with
  | scalar x => simp [processFrame] at ho
  | arr es =>
      match es with
      | [] => simp [processFrame] at ho
      | [e0] => simp [processFrame] at ho
      | e0 :: e1 :: rest =>
          match e1 with
          | FElem.recs rs => simp [processFrame] at ho
          | FElem.v Val.none => simp [processFrame] at ho
          | FElem.v (Val.bool b) => simp [processFrame] at ho
          | FElem.v (Val.int i) => simp [processFrame] at ho
          | FElem.v (Val.num q) => simp [processFrame] at ho
          | FElem.v (Val.str tag) =>
              match rest with
              | [] =>
                  simp only [processFrame] at ho
                  split_ifs at ho <;> simp at ho
              | FElem.v x :: r2 =>
                  simp only [processFrame] at ho
                  split_ifs at ho <;> simp at ho
              | FElem.recs rs :: r2 =>
                  simp only [processFrame] at ho
                  split_ifs at ho <;> simp at ho
                  · obtain ⟨rec, hrec, hdec⟩ := ho
                    exact decodeBorrowerCredit_side hdec
                  · obtain ⟨rec, hrec, hdec⟩ := ho
                    exact decodeBorrowerLoan_side hdec

/-- Every successful read-loop result is borrower side, given a
borrower-side accumulator. -/
theorem readLoop_borrower (ev : List RecvEvent) :
    ∀ (b : Nat) (acc res : List PosDict),
      (∀ o ∈ acc, o.side = "borrower") → readLoop ev b acc = Except.ok res →
      ∀ o ∈ res, o.side = "borrower" := by
  induction ev with
  | nil =>
      intro b acc res hacc h
      cases b with
      | zero =>
          cases Except.ok.inj h
          exact hacc
      | succ b' => exact Except.noConfusion h
  | cons e rest ih =>
      intro b acc res hacc h
      cases b with
      | zero =>
          cases Except.ok.inj h
          exact hacc
      | succ b' =>
          cases e with
          | closed => exact Except.noConfusion h
          | recvErr => exact ih (b' + 1) acc res hacc h
          | parseErr => exact ih b' acc res hacc h
          | frame f =>
              rw [readLoop] at h
              have hext : ∀ o ∈ acc ++ processFrame f, o.side = "borrower" := by
                intro o ho
                rcases List.mem_append.mp ho with hl | hr
                · exact hacc o hl
                · exact processFrame_borrower f o hr
              by_cases hf : isHeartbeat f = true
              · rw [if_pos hf] at h
                exact ih b' acc res hacc h
              · rw [if_neg hf] at h
                split_ifs at h
                · exact ih b' (acc ++ processFrame f) res hext h
                · cases Except.ok.inj h
                  exact hext

/-- C10 confirmed: every position in a successful `get_active_loans`
result has side `"borrower"`; the filter sits inside the snapshot
loops unconditionally — the function's only parameter is
`maintain_connection`, so nothing can disable it. -/
theorem c10_borrower_only :
    ∀ s ok fs ev m res, (get_active_loans s ok fs ev m).1 = Except.ok res →
      ∀ o ∈ res, o.side = "borrower" := by
  intro s ok fs ev m res h
  rw [get_active_loans] at h
  by_cases hcond : s.wsOpen = true ∧ s.isConnected = true
  · rw [if_pos hcond] at h
    rcases hrl : readLoop ev maxMessages [] with e | loans <;>
      simp [runRead, hrl] at h
    rw [← h]
    exact readLoop_borrower ev maxMessages [] loans (by simp) hrl
  · rw [if_neg hcond] at h
    rcases hca : connect_and_authenticate ok fs s with ⟨r, s2⟩
    rw [hca] at h
    rcases r with e | b
    · simp at h
    · cases b with
      | false =>
          simp at h
          rw [h]
          simp
      | true =>
          rcases hrl : readLoop ev maxMessages [] with e | loans <;>
            simp [runRead, hrl] at h
          rw [← h]
          exact readLoop_borrower ev maxMessages [] loans (by simp) hrl

unseal Rat.mul in
/-- C10 witness: a concrete run over one borrower-credit snapshot. -/
theorem c10_borrower_only_witness : creditEx.to_dict.side = "borrower" :=
  c10_borrower_only initState true [okAck]
    [RecvEvent.frame (creditSnapshotFrame [creditRec22])] false [creditEx.to_dict]
    (by decide) creditEx.to_dict (by simp)
